import Mathlib

/-!
Verification of the simulation core of the minego 2D platformer
(src/main.go).  The per-tick step (input, physics, integration,
collision resolution, camera, boundary check) is embedded shallowly:
Go float64 values are modelled as exact rationals, Go int as ℤ, and
each Go function becomes a Lean function of the same name acting on an
explicit game state.
-/

namespace Minego

def screenWidth : ℚ := 800

def screenHeight : ℚ := 600

def gravity : ℚ := 3/10

def moveSpeed : ℚ := 3

def jumpPower : ℚ := -10

def airResistance : ℚ := 98/100

/-- Player state: position, velocity, dimensions, grounded flag
(fields x, y, vx, vy, width, height, onGround of the Go struct). -/
structure Player where
  x : ℚ
  y : ℚ
  vx : ℚ
  vy : ℚ
  width : ℚ
  height : ℚ
  onGround : Bool
deriving DecidableEq, Repr

/-- Static rectangular obstacle; blockType is only used for rendering. -/
structure Block where
  x : ℚ
  y : ℚ
  width : ℚ
  height : ℚ
  blockType : ℕ
deriving DecidableEq, Repr

structure Camera where
  x : ℚ
  y : ℚ
deriving DecidableEq, Repr

structure Game where
  player : Player
  platforms : List Block
  camera : Camera
  score : ℤ
  gameStarted : Bool
deriving DecidableEq, Repr

/-- Keyboard snapshot for one tick: level-triggered left/right,
edge-triggered jump (W) and start (Space). -/
structure Input where
  leftPressed : Bool
  rightPressed : Bool
  jumpJustPressed : Bool
  spaceJustPressed : Bool
deriving DecidableEq, Repr

def noInput : Input := ⟨false, false, false, false⟩

/-- The GameObject interface of the Go code: anything exposing
position and dimensions. -/
structure GameObject where
  x : ℚ
  y : ℚ
  width : ℚ
  height : ℚ
deriving DecidableEq, Repr

def Player.toObj (p : Player) : GameObject := ⟨p.x, p.y, p.width, p.height⟩

def Block.toObj (b : Block) : GameObject := ⟨b.x, b.y, b.width, b.height⟩

/-- AABB intersection test (Go checkCollision): four strict
comparisons, so touching edges do not count. -/
def checkCollision (obj1 obj2 : GameObject) : Bool :=
  decide (obj1.x < obj2.x + obj2.width) && decide (obj1.x + obj1.width > obj2.x) &&
    decide (obj1.y < obj2.y + obj2.height) && decide (obj1.y + obj1.height > obj2.y)

/-- Jump eligibility (Go canJump): grounded, or a probe box one pixel
below the player intersects some platform. -/
def canJump (g : Game) : Bool :=
  g.player.onGround ||
    g.platforms.any fun block =>
      checkCollision
        (Player.mk g.player.x (g.player.y + 1) 0 0 g.player.width g.player.height false).toObj
        block.toObj

/-- Input handling (Go handleInput): horizontal acceleration with
clamping, ground friction with snap-to-zero, then the edge-triggered
jump guarded by canJump. -/
def handleInput (g : Game) (inp : Input) : Game :=
  let p := g.player
  let p :=
    if inp.leftPressed then
      let vx := p.vx - moveSpeed * (2/10)
      { p with vx := if vx < -moveSpeed then -moveSpeed else vx }
    else if inp.rightPressed then
      let vx := p.vx + moveSpeed * (2/10)
      { p with vx := if vx > moveSpeed then moveSpeed else vx }
    else if p.onGround then
      let vx := p.vx * (8/10)
      { p with vx := if |vx| < 1/10 then 0 else vx }
    else p
  let g := { g with player := p }
  if inp.jumpJustPressed && canJump g then
    { g with player := { g.player with vy := jumpPower, onGround := false } }
  else
    g

/-- Physics integration (Go applyPhysics): gravity when airborne, air
resistance on vx, clamp of the fall speed at 10. -/
def applyPhysics (g : Game) : Game :=
  let p := g.player
  let p := if p.onGround then p else { p with vy := p.vy + gravity }
  let p := { p with vx := p.vx * airResistance }
  let p := if p.vy > 10 then { p with vy := 10 } else p
  { g with player := p }

/-- Explicit Euler position update (Go updatePlayerPosition). -/
def updatePlayerPosition (g : Game) : Game :=
  { g with player :=
      { g.player with x := g.player.x + g.player.vx, y := g.player.y + g.player.vy } }

/-- Penetration depth dx1 of the Go resolver: player right edge past
block left edge. -/
def dx1 (p : Player) (b : Block) : ℚ := p.x + p.width - b.x

/-- Penetration depth dx2: block right edge past player left edge. -/
def dx2 (p : Player) (b : Block) : ℚ := b.x + b.width - p.x

/-- Penetration depth dy1: player bottom edge past block top edge. -/
def dy1 (p : Player) (b : Block) : ℚ := p.y + p.height - b.y

/-- Penetration depth dy2: block bottom edge past player top edge. -/
def dy2 (p : Player) (b : Block) : ℚ := b.y + b.height - p.y

/-- Minimum overlap used by the resolver for branch selection. -/
def minOverlap (p : Player) (b : Block) : ℚ :=
  min (min (dx1 p b) (dx2 p b)) (min (dy1 p b) (dy2 p b))

/-- One iteration of the Go checkCollisions loop body for a single
block: resolve the collision along the minimum-overlap axis. -/
def resolveCollision (p : Player) (b : Block) : Player :=
  if checkCollision p.toObj b.toObj then
    if minOverlap p b = dx1 p b then
      { p with x := b.x - p.width, vx := 0 }
    else if minOverlap p b = dx2 p b then
      { p with x := b.x + b.width, vx := 0 }
    else if minOverlap p b = dy1 p b then
      if p.vy < 0 then { p with y := b.y - p.height, vy := 0 }
      else { p with y := b.y - p.height }
    else if minOverlap p b = dy2 p b then
      if p.vy ≥ 0 then { p with y := b.y + b.height, vy := 0, onGround := true }
      else { p with y := b.y + b.height }
    else p
  else p

/-- Collision pass (Go checkCollisions): reset onGround, then resolve
against every platform in registry order, threading the player. -/
def checkCollisions (g : Game) : Game :=
  { g with player := g.platforms.foldl resolveCollision { g.player with onGround := false } }

/-- Camera smoothing (Go updateCamera): exponential decay toward the
centred target, then clamp x at 0. -/
def updateCamera (g : Game) : Game :=
  let targetX := g.player.x - screenWidth / 2
  let targetY := g.player.y - screenHeight / 2
  let cx := g.camera.x + (targetX - g.camera.x) * (1/10)
  let cy := g.camera.y + (targetY - g.camera.y) * (1/10)
  { g with camera := ⟨if cx < 0 then 0 else cx, cy⟩ }

/-- Spawn player literal used by Go resetGame (and NewGame). -/
def spawnPlayer : Player := ⟨100, 100, 0, 0, 20, 20, false⟩

/-- Reset (Go resetGame): respawn the player, zero the score. -/
def resetGame (g : Game) : Game :=
  { g with player := spawnPlayer, score := 0 }

/-- Boundary check (Go checkBoundaries): reset when the player fell
out of the world. -/
def checkBoundaries (g : Game) : Game :=
  if g.player.y > screenHeight + 500 then resetGame g else g

/-- The stages of one started tick up to and including the collision
pass. -/
def collidePhase (g : Game) (inp : Input) : Game :=
  checkCollisions (updatePlayerPosition (applyPhysics (handleInput g inp)))

/-- The stages of one started tick up to and including the camera
update. -/
def tickCore (g : Game) (inp : Input) : Game :=
  updateCamera (collidePhase g inp)

/-- One full tick (Go Update): wait for Space before the game starts,
otherwise input, physics, integration, collision, camera, boundary. -/
def update (g : Game) (inp : Input) : Game :=
  if g.gameStarted = false then
    if inp.spaceJustPressed then { g with gameStarted := true } else g
  else
    checkBoundaries (tickCore g inp)

/-- Iterated ticks with a fixed input. -/
def ticks : ℕ → Game → Game
  | 0, g => g
  | n + 1, g => update (ticks n g) noInput

def pC2 : Player := ⟨95, 40, 1, 2, 20, 20, false⟩

def bC2 : Block := ⟨110, 0, 100, 100, 0⟩

def gW : Game :=
  { player := ⟨0, 2000, 0, 0, 20, 20, true⟩, platforms := [],
    camera := ⟨0, 0⟩, score := 7, gameStarted := true }

/-- Branch detector: the resolver takes the fourth (dy2) branch for
this block with a nonnegative vy, i.e. the branch that sets the
grounded flag. -/
def landingGround (p : Player) (b : Block) : Bool :=
  checkCollision p.toObj b.toObj &&
    (!decide (minOverlap p b = dx1 p b) && !decide (minOverlap p b = dx2 p b) &&
      !decide (minOverlap p b = dy1 p b) && decide (minOverlap p b = dy2 p b) &&
      decide (p.vy ≥ 0))

/-- Whether some block of the list makes the resolver take the
grounding branch, threading the player through the pass like the Go
loop does. -/
def anyLanding : Player → List Block → Bool
  | _, [] => false
  | p, b :: bs => landingGround p b || anyLanding (resolveCollision p b) bs

def c3g : Game :=
  { player := ⟨10, 1208, 0, 7/10, 20, 20, false⟩,
    platforms := [⟨0, 1200, 100, 10, 1⟩],
    camera := ⟨0, 0⟩, score := 5, gameStarted := true }

def blkC1 : Block := ⟨0, 100, 100, 40, 3⟩

def pC1 (vy : ℚ) : Player := ⟨10, 80, 0, vy, 20, 20, false⟩

def gC1 (vy : ℚ) (cam : Camera) : Game :=
  { player := pC1 vy, platforms := [blkC1], camera := cam, score := 0, gameStarted := true }

def sC1 : Game := gC1 0 ⟨0, 0⟩

lemma clamp_eq_min (a : ℚ) : (if a > 10 then (10:ℚ) else a) = min a 10 := by
  rw [min_def]
  split_ifs <;> first | rfl | linarith

lemma if_neg_eq_max (c : ℚ) : (if c < 0 then (0:ℚ) else c) = max 0 c := by
  rw [max_def]
  split_ifs <;> first | rfl | linarith

lemma checkCollision_true_iff (a b : GameObject) :
    checkCollision a b = true ↔
      (a.x < b.x + b.width ∧ a.x + a.width > b.x ∧
        a.y < b.y + b.height ∧ a.y + a.height > b.y) := by
  simp [checkCollision, and_assoc]

/-- C4: the intersection test returns true exactly when all four
strict inequalities hold, i.e. when the two rectangles overlap with
nonzero area; disjoint pairs and pairs sharing only a boundary edge
violate one of the strict inequalities, so they yield false. -/
theorem C4_intersects_iff (a b : GameObject) :
    checkCollision a b = true ↔
      (a.x < b.x + b.width ∧ a.x + a.width > b.x ∧
        a.y < b.y + b.height ∧ a.y + a.height > b.y) := by
  simp [checkCollision, and_assoc]

/-- C5: one physics step adds gravity to vy exactly when the player is
airborne, scales vx by the air-resistance factor in every case, clamps
vy from above at 10 (values at most 10, including all negative upward
velocities, pass through unchanged), and the subsequent position
update adds the velocity to the position component-wise. -/
theorem C5_physics_step (g : Game) :
    (applyPhysics g).player.vy
        = min (if g.player.onGround then g.player.vy else g.player.vy + gravity) 10
      ∧ (applyPhysics g).player.vx = g.player.vx * airResistance
      ∧ (applyPhysics g).player.x = g.player.x
      ∧ (applyPhysics g).player.y = g.player.y
      ∧ (applyPhysics g).player.onGround = g.player.onGround
      ∧ (updatePlayerPosition g).player.x = g.player.x + g.player.vx
      ∧ (updatePlayerPosition g).player.y = g.player.y + g.player.vy := by
  rcases g with ⟨⟨x, y, vx, vy, w, ht, og⟩, plats, cam, sc, st⟩
  cases og <;>
    simp [applyPhysics, updatePlayerPosition, apply_ite Player.vy, apply_ite Player.vx,
      apply_ite Player.x, apply_ite Player.y, apply_ite Player.onGround, clamp_eq_min]

/-- C6: jump eligibility holds exactly when the player is grounded or
a probe box sharing the player x, width and height placed one pixel
lower intersects at least one obstacle; the check is a pure read of
the state. -/
theorem C6_canJump_iff (g : Game) :
    canJump g = true ↔
      (g.player.onGround = true ∨
        ∃ b ∈ g.platforms,
          checkCollision
            (GameObject.mk g.player.x (g.player.y + 1) g.player.width g.player.height)
            b.toObj = true) := by
  simp [canJump, Player.toObj, List.any_eq_true]

/-- C9: the camera update moves each offset component by
(target − offset) × 1/10 toward the actor-centred target and then
clamps offset.x from below at 0 (so offset.x is nonnegative after
every update), while offset.y follows the unclamped smoothing formula;
the player is untouched. -/
theorem C9_camera_spec (g : Game) :
    (updateCamera g).camera.x
        = max 0 (g.camera.x + (g.player.x - screenWidth / 2 - g.camera.x) * (1/10))
      ∧ (updateCamera g).camera.y
        = g.camera.y + (g.player.y - screenHeight / 2 - g.camera.y) * (1/10)
      ∧ 0 ≤ (updateCamera g).camera.x
      ∧ (updateCamera g).player = g.player := by
  refine ⟨?_, rfl, ?_, rfl⟩
  · simp only [updateCamera]
    exact if_neg_eq_max _
  · simp only [updateCamera]
    rw [if_neg_eq_max]
    exact le_max_left 0 _

/-- C10: the fall-out reset touches only the player and the score: the
camera offset, the obstacle list and the started flag all survive the
reset unchanged, the player becomes the fixed spawn player and the
score becomes 0. -/
theorem C10_reset_frame (g : Game) :
    (resetGame g).camera = g.camera ∧ (resetGame g).platforms = g.platforms
      ∧ (resetGame g).gameStarted = g.gameStarted
      ∧ (resetGame g).player = spawnPlayer ∧ (resetGame g).score = 0 :=
  ⟨rfl, rfl, rfl, rfl, rfl⟩

/-- C2: for an obstacle intersecting the player box, the resolver
computes the four penetration depths dx1, dx2, dy1, dy2, picks the
smallest with exact-equality ties broken in the order dx1 (right),
dx2 (left), dy1 (third branch), dy2 (fourth branch), and applies the
branch rule: the third branch snaps y to obstacle.y minus the player
height and zeroes vy only when vy < 0; the fourth branch snaps y to
obstacle.y plus the obstacle height and, only when vy is nonnegative,
zeroes vy and sets the grounded flag; each horizontal branch snaps x
flush to the obstacle face and zeroes vx. -/
theorem C2_resolver_spec (p : Player) (b : Block)
    (h : checkCollision p.toObj b.toObj = true) :
    dx1 p b = p.x + p.width - b.x
      ∧ dx2 p b = b.x + b.width - p.x
      ∧ dy1 p b = p.y + p.height - b.y
      ∧ dy2 p b = b.y + b.height - p.y
      ∧ (dx1 p b ≤ dx2 p b ∧ dx1 p b ≤ dy1 p b ∧ dx1 p b ≤ dy2 p b →
          resolveCollision p b = { p with x := b.x - p.width, vx := 0 })
      ∧ (dx2 p b < dx1 p b ∧ dx2 p b ≤ dy1 p b ∧ dx2 p b ≤ dy2 p b →
          resolveCollision p b = { p with x := b.x + b.width, vx := 0 })
      ∧ (dy1 p b < dx1 p b ∧ dy1 p b < dx2 p b ∧ dy1 p b ≤ dy2 p b →
          resolveCollision p b =
            if p.vy < 0 then { p with y := b.y - p.height, vy := 0 }
            else { p with y := b.y - p.height })
      ∧ (dy2 p b < dx1 p b ∧ dy2 p b < dx2 p b ∧ dy2 p b < dy1 p b →
          resolveCollision p b =
            if p.vy ≥ 0 then { p with y := b.y + b.height, vy := 0, onGround := true }
            else { p with y := b.y + b.height }) := by
  refine ⟨rfl, rfl, rfl, rfl, ?_, ?_, ?_, ?_⟩
  · rintro ⟨h1, h2, h3⟩
    have hm : minOverlap p b = dx1 p b := by
      unfold minOverlap
      exact le_antisymm (min_le_of_left_le (min_le_left _ _))
        (le_min (le_min le_rfl h1) (le_min h2 h3))
    rw [resolveCollision, if_pos h, if_pos hm]
  · rintro ⟨h1, h2, h3⟩
    have hm : minOverlap p b = dx2 p b := by
      unfold minOverlap
      exact le_antisymm (min_le_of_left_le (min_le_right _ _))
        (le_min (le_min h1.le le_rfl) (le_min h2 h3))
    have hne : ¬ minOverlap p b = dx1 p b := by
      rw [hm]
      exact ne_of_lt h1
    rw [resolveCollision, if_pos h, if_neg hne, if_pos hm]
  · rintro ⟨h1, h2, h3⟩
    have hm : minOverlap p b = dy1 p b := by
      unfold minOverlap
      exact le_antisymm (min_le_of_right_le (min_le_left _ _))
        (le_min (le_min h1.le h2.le) (le_min le_rfl h3))
    have hne1 : ¬ minOverlap p b = dx1 p b := by
      rw [hm]
      exact ne_of_lt h1
    have hne2 : ¬ minOverlap p b = dx2 p b := by
      rw [hm]
      exact ne_of_lt h2
    rw [resolveCollision, if_pos h, if_neg hne1, if_neg hne2, if_pos hm]
  · rintro ⟨h1, h2, h3⟩
    have hm : minOverlap p b = dy2 p b := by
      unfold minOverlap
      exact le_antisymm (min_le_of_right_le (min_le_right _ _))
        (le_min (le_min h1.le h2.le) (le_min h3.le le_rfl))
    have hne1 : ¬ minOverlap p b = dx1 p b := by
      rw [hm]
      exact ne_of_lt h1
    have hne2 : ¬ minOverlap p b = dx2 p b := by
      rw [hm]
      exact ne_of_lt h2
    have hne3 : ¬ minOverlap p b = dy1 p b := by
      rw [hm]
      exact ne_of_lt h3
    rw [resolveCollision, if_pos h, if_neg hne1, if_neg hne2, if_neg hne3, if_pos hm]

theorem C2_witness :
    checkCollision pC2.toObj bC2.toObj = true
      ∧ (dx1 pC2 bC2 ≤ dx2 pC2 bC2 ∧ dx1 pC2 bC2 ≤ dy1 pC2 bC2 ∧ dx1 pC2 bC2 ≤ dy2 pC2 bC2)
      ∧ resolveCollision pC2 bC2 = { pC2 with x := bC2.x - pC2.width, vx := 0 } := by
  have hcol : checkCollision pC2.toObj bC2.toObj = true := by
    norm_num [checkCollision, pC2, bC2, Player.toObj, Block.toObj]
  have h1 : dx1 pC2 bC2 ≤ dx2 pC2 bC2 := by norm_num [dx1, dx2, pC2, bC2]
  have h2 : dx1 pC2 bC2 ≤ dy1 pC2 bC2 := by norm_num [dx1, dy1, pC2, bC2]
  have h3 : dx1 pC2 bC2 ≤ dy2 pC2 bC2 := by norm_num [dx1, dy2, pC2, bC2]
  exact ⟨hcol, ⟨h1, h2, h3⟩, (C2_resolver_spec pC2 bC2 hcol).2.2.2.2.1 ⟨h1, h2, h3⟩⟩

/-- C7: if the player is grounded and the jump key is newly pressed,
the input stage of that same tick sets vy to exactly the jump impulse
constant and clears the grounded flag, whatever the horizontal keys
are. -/
theorem C7_jump_impulse (g : Game) (inp : Input)
    (hg : g.player.onGround = true) (hj : inp.jumpJustPressed = true) :
    (handleInput g inp).player.vy = jumpPower
      ∧ (handleInput g inp).player.onGround = false := by
  rcases g with ⟨⟨x, y, vx, vy, w, ht, og⟩, plats, cam, sc, st⟩
  subst hg
  simp only [handleInput]
  split_ifs with h1 h2 h3 <;> simp_all [canJump]

theorem C7_witness :
    (handleInput ⟨⟨0, 0, 0, 0, 20, 20, true⟩, [], ⟨0, 0⟩, 0, true⟩
        ⟨false, false, true, false⟩).player.vy = jumpPower
      ∧ (handleInput ⟨⟨0, 0, 0, 0, 20, 20, true⟩, [], ⟨0, 0⟩, 0, true⟩
          ⟨false, false, true, false⟩).player.onGround = false :=
  C7_jump_impulse _ _ rfl rfl

/-- C8: in a started tick, when the player y seen by the boundary
check exceeds the viewport height plus the 500 fall-out margin the
tick ends in the reset state (spawn player, score 0, everything else
as produced by the earlier stages); otherwise the tick makes no
reset. -/
theorem C8_boundary_reset (g : Game) (inp : Input) (hst : g.gameStarted = true) :
    (screenHeight + 500 < (tickCore g inp).player.y →
        update g inp = { tickCore g inp with player := spawnPlayer, score := 0 })
      ∧ ((tickCore g inp).player.y ≤ screenHeight + 500 →
        update g inp = tickCore g inp) := by
  have hng : ¬ g.gameStarted = false := by simp [hst]
  constructor
  · intro hy
    rw [update, if_neg hng, checkBoundaries, if_pos hy]
    rfl
  · intro hy
    rw [update, if_neg hng, checkBoundaries, if_neg (not_lt.mpr hy)]

theorem C8_witness :
    gW.gameStarted = true
      ∧ screenHeight + 500 < (tickCore gW noInput).player.y
      ∧ update gW noInput = { tickCore gW noInput with player := spawnPlayer, score := 0 } := by
  have hy : screenHeight + 500 < (tickCore gW noInput).player.y := by
    norm_num [tickCore, collidePhase, checkCollisions, updatePlayerPosition, applyPhysics,
      handleInput, updateCamera, noInput, gW, screenHeight, screenWidth, gravity,
      airResistance, moveSpeed]
  exact ⟨rfl, hy, (C8_boundary_reset gW noInput rfl).1 hy⟩

lemma resolveCollision_onGround (p : Player) (b : Block) :
    (resolveCollision p b).onGround = (p.onGround || landingGround p b) := by
  unfold resolveCollision landingGround
  split_ifs with hc h1 h2 h3 h4 h5 <;> simp_all

lemma foldl_resolve_onGround (bs : List Block) :
    ∀ p : Player,
      (bs.foldl resolveCollision p).onGround = (p.onGround || anyLanding p bs) := by
  induction bs with
  | nil => intro p; simp [anyLanding]
  | cons b bs ih =>
      intro p
      simp [anyLanding, List.foldl, ih, resolveCollision_onGround, Bool.or_assoc]

lemma checkCollisions_onGround (g : Game) :
    (checkCollisions g).player.onGround
      = anyLanding { g.player with onGround := false } g.platforms := by
  simp [checkCollisions, foldl_resolve_onGround]

lemma handleInput_platforms (g : Game) (inp : Input) :
    (handleInput g inp).platforms = g.platforms := by
  simp only [handleInput]
  split_ifs <;> rfl

/-- C3 (amended): in every started tick the collision pass starts from
a cleared grounded flag, and at the end of the pass the flag is true
exactly when some obstacle resolution of that pass took the grounding
(fourth, dy2) branch with nonnegative vy; at the end of the whole tick
the flag keeps that value except that a firing boundary reset forces
it back to false. -/
theorem C3_grounded_flow (g : Game) (inp : Input) (hst : g.gameStarted = true) :
    (collidePhase g inp).player.onGround
        = anyLanding
            { (updatePlayerPosition (applyPhysics (handleInput g inp))).player with
                onGround := false }
            g.platforms
      ∧ (update g inp).player.onGround
        = ((collidePhase g inp).player.onGround
            && !decide ((collidePhase g inp).player.y > screenHeight + 500)) := by
  have hng : ¬ g.gameStarted = false := by simp [hst]
  constructor
  · rw [collidePhase, checkCollisions_onGround]
    have hpl : (updatePlayerPosition (applyPhysics (handleInput g inp))).platforms
        = g.platforms := handleInput_platforms g inp
    rw [hpl]
  · rw [update, if_neg hng]
    by_cases hy : (tickCore g inp).player.y > screenHeight + 500
    · rw [checkBoundaries, if_pos hy]
      have : (tickCore g inp).player = (collidePhase g inp).player := rfl
      rw [this] at hy
      simp [resetGame, spawnPlayer, hy]
    · rw [checkBoundaries, if_neg hy]
      have : (tickCore g inp).player = (collidePhase g inp).player := rfl
      rw [this] at hy
      simp [tickCore, updateCamera, hy]

/-- C3 (counterexample): in this concrete started tick a resolution
takes the grounding branch with nonnegative vy, yet the grounded flag
is false at the end of the tick, because the boundary reset fires
afterwards; this falsifies the claimed end-of-tick equivalence. -/
theorem C3_counterexample :
    anyLanding
        { (updatePlayerPosition (applyPhysics (handleInput c3g noInput))).player with
            onGround := false }
        c3g.platforms = true
      ∧ (update c3g noInput).player.onGround = false := by
  constructor
  · norm_num [anyLanding, landingGround, updatePlayerPosition, applyPhysics, handleInput,
      checkCollision, minOverlap, dx1, dx2, dy1, dy2, noInput, c3g, gravity, airResistance,
      Player.toObj, Block.toObj, min_def]
  · norm_num [update, tickCore, collidePhase, checkCollisions, updatePlayerPosition,
      applyPhysics, handleInput, updateCamera, checkBoundaries, resetGame, resolveCollision,
      checkCollision, minOverlap, dx1, dx2, dy1, dy2, noInput, c3g, screenHeight, screenWidth,
      gravity, airResistance, spawnPlayer, Player.toObj, Block.toObj, min_def, List.foldl]

lemma C1_step (vy : ℚ) (cam : Camera) (h0 : 0 ≤ vy) :
    ∃ vy1 cam1, 0 < vy1 ∧ vy1 ≤ 10 ∧ update (gC1 vy cam) noInput = gC1 vy1 cam1 := by
  obtain ⟨vy1, hvy1⟩ : ∃ v : ℚ, v = if vy + gravity > 10 then (10:ℚ) else vy + gravity :=
    ⟨_, rfl⟩
  have hgr : gravity = 3/10 := rfl
  have hpos : 0 < vy1 := by
    rw [hvy1]
    split_ifs with h
    · norm_num
    · rw [hgr]; linarith
  have hle : vy1 ≤ 10 := by
    rw [hvy1]
    split_ifs with h
    · exact le_rfl
    · push_neg at h; exact h
  have h1 : handleInput (gC1 vy cam) noInput = gC1 vy cam := rfl
  have h2 : applyPhysics (gC1 vy cam)
      = { player := ⟨10, 80, 0, vy1, 20, 20, false⟩, platforms := [blkC1],
          camera := cam, score := 0, gameStarted := true } := by
    rw [hvy1]
    by_cases h : vy + gravity > 10 <;> simp [applyPhysics, gC1, pC1, h]
  have h3 : updatePlayerPosition
        { player := ⟨10, 80, 0, vy1, 20, 20, false⟩, platforms := [blkC1],
          camera := cam, score := 0, gameStarted := true }
      = { player := ⟨10, 80 + vy1, 0, vy1, 20, 20, false⟩, platforms := [blkC1],
          camera := cam, score := 0, gameStarted := true } := by
    simp [updatePlayerPosition]
  have hcol : checkCollision (Player.mk 10 (80 + vy1) 0 vy1 20 20 false).toObj blkC1.toObj
      = true := by
    rw [checkCollision_true_iff]
    refine ⟨by norm_num [Player.toObj, Block.toObj, blkC1], ?_, ?_, ?_⟩ <;>
      simp [Player.toObj, Block.toObj, blkC1] <;> linarith
  have hmo : minOverlap (Player.mk 10 (80 + vy1) 0 vy1 20 20 false) blkC1 = vy1 := by
    have e1 : dx1 (Player.mk 10 (80 + vy1) 0 vy1 20 20 false) blkC1 = 30 := by
      simp [dx1, blkC1]; norm_num
    have e2 : dx2 (Player.mk 10 (80 + vy1) 0 vy1 20 20 false) blkC1 = 90 := by
      simp [dx2, blkC1]; norm_num
    have e3 : dy1 (Player.mk 10 (80 + vy1) 0 vy1 20 20 false) blkC1 = vy1 := by
      simp [dy1, blkC1]; ring
    have e4 : dy2 (Player.mk 10 (80 + vy1) 0 vy1 20 20 false) blkC1 = 60 - vy1 := by
      simp [dy2, blkC1]; ring
    rw [minOverlap, e1, e2, e3, e4]
    rw [min_eq_left (by norm_num : (30:ℚ) ≤ 90),
      min_eq_left (by linarith : vy1 ≤ 60 - vy1),
      min_eq_right (by linarith : vy1 ≤ 30)]
  have h4 : checkCollisions
        { player := ⟨10, 80 + vy1, 0, vy1, 20, 20, false⟩, platforms := [blkC1],
          camera := cam, score := 0, gameStarted := true }
      = { player := ⟨10, 80, 0, vy1, 20, 20, false⟩, platforms := [blkC1],
          camera := cam, score := 0, gameStarted := true } := by
    have hne1 : ¬ minOverlap (Player.mk 10 (80 + vy1) 0 vy1 20 20 false) blkC1
        = dx1 (Player.mk 10 (80 + vy1) 0 vy1 20 20 false) blkC1 := by
      rw [hmo]
      simp [dx1, blkC1]
      intro h
      linarith
    have hne2 : ¬ minOverlap (Player.mk 10 (80 + vy1) 0 vy1 20 20 false) blkC1
        = dx2 (Player.mk 10 (80 + vy1) 0 vy1 20 20 false) blkC1 := by
      rw [hmo]
      simp [dx2, blkC1]
      intro h
      linarith
    have heq3 : minOverlap (Player.mk 10 (80 + vy1) 0 vy1 20 20 false) blkC1
        = dy1 (Player.mk 10 (80 + vy1) 0 vy1 20 20 false) blkC1 := by
      rw [hmo]
      simp [dy1, blkC1]
      ring
    have hnv : ¬ ((Player.mk 10 (80 + vy1) 0 vy1 20 20 false).vy < 0) := by
      simp
      linarith
    simp only [checkCollisions, List.foldl]
    rw [resolveCollision, if_pos hcol, if_neg hne1, if_neg hne2, if_pos heq3, if_neg hnv]
    simp [blkC1]
    norm_num
  set Y : Game :=
    { player := ⟨10, 80, 0, vy1, 20, 20, false⟩, platforms := [blkC1],
      camera := cam, score := 0, gameStarted := true } with hY
  have hy5 : ¬ ((updateCamera Y).player.y > screenHeight + 500) := by
    have hpy : (updateCamera Y).player.y = (80:ℚ) := rfl
    rw [hpy, screenHeight]
    norm_num
  refine ⟨vy1, (updateCamera Y).camera, hpos, hle, ?_⟩
  rw [update]
  rw [if_neg (by simp [gC1] : ¬ (gC1 vy cam).gameStarted = false)]
  rw [tickCore, collidePhase, h1, h2, h3, h4]
  rw [checkBoundaries, if_neg hy5]
  rfl

lemma C1_invariant (n : ℕ) :
    ∃ vy cam, 0 ≤ vy ∧ ticks n sC1 = gC1 vy cam ∧ (0 < n → 0 < vy) := by
  induction n with
  | zero =>
      exact ⟨0, ⟨0, 0⟩, le_rfl, rfl, fun h => absurd h (lt_irrefl 0)⟩
  | succ n ih =>
      obtain ⟨vy, cam, h0, heq, _⟩ := ih
      obtain ⟨vy1, cam1, hpos, _, hstep⟩ := C1_step vy cam h0
      exact ⟨vy1, cam1, hpos.le, by rw [ticks, heq, hstep], fun _ => hpos⟩

/-- C1 (code behaviour at the failing input): dropping the player at
rest above the wide block blkC1 with no input, every tick ends with
the player snapped to y = 80 = blkC1.y minus the player height, but
the grounded flag is false after every tick and vy is strictly
positive after every tick from the first on, so the code never reaches
the claimed settled state with vy = 0 and grounded = true.  The dy1
branch of the resolver performs the landing snap yet applies the
head-hit velocity rule, contradicting the comments in the source. -/
theorem C1_never_grounds : ∀ n : ℕ,
    (ticks n sC1).player.y = 80
      ∧ (ticks n sC1).player.onGround = false
      ∧ 0 < (ticks (n + 1) sC1).player.vy := by
  intro n
  obtain ⟨vy, cam, _, heq, _⟩ := C1_invariant n
  obtain ⟨vy2, cam2, _, heq2, hpos2⟩ := C1_invariant (n + 1)
  refine ⟨?_, ?_, ?_⟩
  · rw [heq]; rfl
  · rw [heq]; rfl
  · rw [heq2]; exact hpos2 n.succ_pos

/-- Witness instantiating the amended C3 theorem at a concrete started
state. -/
theorem C3_witness :
    c3g.gameStarted = true
      ∧ (update c3g noInput).player.onGround
        = ((collidePhase c3g noInput).player.onGround
            && !decide ((collidePhase c3g noInput).player.y > screenHeight + 500)) :=
  ⟨rfl, (C3_grounded_flow c3g noInput rfl).2⟩

end Minego
